import Mathlib

/-!
Verification development for the obd-reader repository (src/obd_ii2gr.py).

The Python module polls an OBD-II interface for Toyota 2GR engine
parameters, decodes custom-PID hexadecimal payloads with small arithmetic
lambdas, collects the readings into a snapshot dictionary, appends the
snapshot to a CSV file, and runs threshold checks on the VVT bank angles.

The shallow embedding below translates the module into Lean:
the decode lambdas become functions on lists of characters returning
Option (a Python exception inside int(..., 16) becomes none); the
transport connection becomes a record of query functions returning Except
(a raising query becomes an error value); the sampler, the CSV logger and
the per-snapshot monitor body become functions on those records.  Python
floats appear only as a byte divided by 128.0 followed by a subtraction,
which binary floating point computes exactly, so rational numbers model
the float arithmetic without loss.

The module imports only obd, datetime and csv (lines 1-3 of the source).
The names os (used at line 94) and time (used at lines 104, 107, 123, 138)
are never imported, so evaluating them raises NameError; the embedding of
log_to_csv reproduces this.
-/

namespace ObdReader

/-- Python exception classes that the embedded code can raise. -/
inductive PyError where
  | typeError
  | nameError
  | valueError
  | keyError
  | attributeError
  | connectionError
  | other
  deriving DecidableEq, Repr

/-- Value of a single hexadecimal digit character, as accepted by
Python int(s, 16): digits 0-9, lowercase a-f, uppercase A-F; none
otherwise.  Character ranges are expressed on code points (48-57 for
digits, 97-102 for a-f, 65-70 for A-F). -/
def hexDigitVal (c : Char) : Option Nat :=
  if 48 ≤ c.toNat ∧ c.toNat ≤ 57 then some (c.toNat - 48)
  else if 97 ≤ c.toNat ∧ c.toNat ≤ 102 then some (c.toNat - 87)
  else if 65 ≤ c.toNat ∧ c.toNat ≤ 70 then some (c.toNat - 55)
  else none

/-- Accumulating left-to-right base-16 evaluation of a digit string. -/
def hexAcc : Nat → List Char → Option Nat
  | acc, [] => some acc
  | acc, c :: cs =>
    match hexDigitVal c with
    | some d => hexAcc (16 * acc + d) cs
    | none => none

/-- Python int(s, 16) on a plain string of hexadecimal digits: fails
(raises ValueError, here none) on the empty string and on any non-hex
character.  The optional sign, 0x prefix and underscore forms Python also
accepts never occur in OBD payload strings and are not modelled. -/
def pyIntHex (s : List Char) : Option Nat :=
  match s with
  | [] => none
  | _ :: _ => hexAcc 0 s

/-- Python slice s[a:b] for 0 ≤ a ≤ b: characters at indices a to b-1,
truncated at the end of the string. -/
def pySlice (s : List Char) (a b : Nat) : List Char :=
  (s.take b).drop a

/-- Decode lambda of CUSTOM_PIDS at VVT_ANGLE_BANK1 and VVT_ANGLE_BANK2
(source lines 10 and 15): (int(data[2:4], 16) / 128.0) - 50, degrees.
Dividing a byte by 128.0 and subtracting 50 is exact in binary floating
point, so the rational result equals the Python float. -/
def decode_vvt_angle (data : List Char) : Option ℚ :=
  (pyIntHex (pySlice data 2 4)).map (fun (n : Nat) => (n : ℚ) / 128 - 50)

/-- Decode lambda of CUSTOM_PIDS at FUEL_TRIM_CELL (source line 20):
int(data, 16). -/
def decode_fuel_trim_cell (data : List Char) : Option Nat :=
  pyIntHex data

/-- Decode lambda of CUSTOM_PIDS at AF_CORRECTION (source line 25):
int(data[2:4], 16) - 128, percent. -/
def decode_af_correction (data : List Char) : Option ℤ :=
  (pyIntHex (pySlice data 2 4)).map (fun (n : Nat) => (n : ℤ) - 128)

/-- Request code and expected byte count of one CUSTOM_PIDS entry. -/
structure PidConfig where
  command : String
  bytes : Nat
  deriving DecidableEq, Repr

/-- The CUSTOM_PIDS table (source lines 6-27): request codes and byte
counts, in the dictionary order of the source; the decode lambdas are the
three functions above. -/
def CUSTOM_PIDS : List (String × PidConfig) :=
  [("VVT_ANGLE_BANK1", ⟨"221160", 4⟩),
   ("VVT_ANGLE_BANK2", ⟨"221165", 4⟩),
   ("FUEL_TRIM_CELL", ⟨"221150", 2⟩),
   ("AF_CORRECTION", ⟨"221154", 4⟩)]

/-- Hexadecimal digit character for a value below 16 (lowercase, as
Python hex output would produce); used only to build concrete payloads
witnessing that every byte value is reachable. -/
def toHexChar (n : Nat) : Char :=
  match n with
  | 0 => '0' | 1 => '1' | 2 => '2' | 3 => '3' | 4 => '4'
  | 5 => '5' | 6 => '6' | 7 => '7' | 8 => '8' | 9 => '9'
  | 10 => 'a' | 11 => 'b' | 12 => 'c' | 13 => 'd' | 14 => 'e'
  | _ => 'f'

lemma hexDigitVal_lt_16 {c : Char} {d : Nat} (h : hexDigitVal c = some d) :
    d < 16 := by
  unfold hexDigitVal at h
  split at h
  · simp only [Option.some.injEq] at h
    omega
  · split at h
    · simp only [Option.some.injEq] at h
      omega
    · split at h
      · simp only [Option.some.injEq] at h
        omega
      · exact absurd h (by simp)

lemma hexAcc_pair {c₁ c₂ : Char} {d₁ d₂ : Nat}
    (h₁ : hexDigitVal c₁ = some d₁) (h₂ : hexDigitVal c₂ = some d₂) :
    hexAcc 0 [c₁, c₂] = some (16 * d₁ + d₂) := by
  simp [hexAcc, h₁, h₂]

lemma pyIntHex_le_255 {s : List Char} {b : Nat}
    (hlen : s.length ≤ 2) (h : pyIntHex s = some b) : b ≤ 255 := by
  match s with
  | [] => simp [pyIntHex] at h
  | [c] =>
    simp only [pyIntHex, hexAcc] at h
    cases hc : hexDigitVal c with
    | none => rw [hc] at h; simp [hexAcc] at h
    | some d =>
      rw [hc] at h
      simp only [hexAcc, Option.some.injEq] at h
      have := hexDigitVal_lt_16 hc
      omega
  | [c₁, c₂] =>
    simp only [pyIntHex, hexAcc] at h
    cases hc₁ : hexDigitVal c₁ with
    | none => rw [hc₁] at h; simp at h
    | some d₁ =>
      rw [hc₁] at h
      cases hc₂ : hexDigitVal c₂ with
      | none => rw [hc₂] at h; simp [hexAcc] at h
      | some d₂ =>
        rw [hc₂] at h
        simp only [hexAcc, Option.some.injEq] at h
        have := hexDigitVal_lt_16 hc₁
        have := hexDigitVal_lt_16 hc₂
        omega
  | _ :: _ :: _ :: _ => simp at hlen

lemma pySlice_2_4_length_le (s : List Char) : (pySlice s 2 4).length ≤ 2 := by
  simp only [pySlice, List.length_drop, List.length_take]
  omega

lemma toHexChar_val {n : Nat} (h : n < 16) : hexDigitVal (toHexChar n) = some n := by
  interval_cases n <;> decide

lemma pyIntHex_byte {b : Nat} (h : b < 256) :
    pyIntHex [toHexChar (b / 16), toHexChar (b % 16)] = some b := by
  have h₁ : hexDigitVal (toHexChar (b / 16)) = some (b / 16) :=
    toHexChar_val (by omega)
  have h₂ : hexDigitVal (toHexChar (b % 16)) = some (b % 16) :=
    toHexChar_val (by omega)
  simp only [pyIntHex, hexAcc_pair h₁ h₂, Option.some.injEq]
  omega

/-- A value-with-unit as returned by the obd library for standard
commands; the sampler reads only its magnitude. -/
structure Quantity where
  magnitude : ℚ
  deriving DecidableEq, Repr

/-- A response of connection.query: its value attribute is either absent
(falsy, Python None) or a quantity. -/
structure OBDResponse where
  value : Option Quantity
  deriving DecidableEq, Repr

/-- The standard obd library commands the sampler queries. -/
inductive StdCmd where
  | RPM
  | COOLANT_TEMP
  | THROTTLE_POS
  | SHORT_FUEL_TRIM_1
  | LONG_FUEL_TRIM_1
  deriving DecidableEq, Repr

/-- The transport collaborator (an obd.OBD connection object, external to
this module): a query on a standard command either raises or returns a
response; a custom-PID query (the command lookup obd.commands at the pid
name, the query, and reading the decoded value attribute) either raises
at some stage or returns the decoded value or None. -/
structure Connection where
  queryStd : StdCmd → Except PyError OBDResponse
  queryCustom : String → Except PyError (Option ℚ)

/-- Method get_standard_pid, source lines 77-79: query the connection
(no try block, so a raising query propagates to the caller), then return
response.value.magnitude when response.value is truthy and None
otherwise. -/
def get_standard_pid (conn : Connection) (cmd : StdCmd) :
    Except PyError (Option ℚ) :=
  match conn.queryStd cmd with
  | .error e => .error e
  | .ok r =>
    match r.value with
    | some q => .ok (some q.magnitude)
    | none => .ok none

/-- Method get_custom_pid, source lines 81-87: command lookup, query and
value read inside a try with a bare except returning None, so every
exception maps to None. -/
def get_custom_pid (conn : Connection) (name : String) : Option ℚ :=
  match conn.queryCustom name with
  | .ok v => v
  | .error _ => none

/-- The snapshot dictionary built by get_2gr_specific_data, source lines
63-74; field order is the insertion order of the dict literal. -/
structure Snapshot where
  timestamp : String
  rpm : Option ℚ
  coolant_temp : Option ℚ
  vvt_bank1 : Option ℚ
  vvt_bank2 : Option ℚ
  fuel_trim_cell : Option ℚ
  af_correction : Option ℚ
  throttle_pos : Option ℚ
  short_term_ft : Option ℚ
  long_term_ft : Option ℚ
  deriving DecidableEq, Repr

/-- A Python dict value of the snapshot: the timestamp string, a number,
or None. -/
inductive PyValue where
  | vNone
  | vNum (q : ℚ)
  | vStr (s : String)
  deriving DecidableEq, Repr

/-- A numeric-or-absent reading as a dict value. -/
def optVal : Option ℚ → PyValue
  | none => PyValue.vNone
  | some q => PyValue.vNum q

/-- The snapshot as the ordered key-value list of the Python dict literal
of source lines 63-74. -/
def Snapshot.toPairs (d : Snapshot) : List (String × PyValue) :=
  [("timestamp", PyValue.vStr d.timestamp),
   ("rpm", optVal d.rpm),
   ("coolant_temp", optVal d.coolant_temp),
   ("vvt_bank1", optVal d.vvt_bank1),
   ("vvt_bank2", optVal d.vvt_bank2),
   ("fuel_trim_cell", optVal d.fuel_trim_cell),
   ("af_correction", optVal d.af_correction),
   ("throttle_pos", optVal d.throttle_pos),
   ("short_term_ft", optVal d.short_term_ft),
   ("long_term_ft", optVal d.long_term_ft)]

/-- data.keys() of the snapshot dict: the keys in insertion order. -/
def Snapshot.keys (d : Snapshot) : List String :=
  (d.toPairs).map Prod.fst

/-- The fieldnames argument the code passes to csv.DictWriter at source
line 96: fieldnames equals data.keys(). -/
def csvFieldnames (d : Snapshot) : List String :=
  d.keys

/-- Method get_2gr_specific_data, source lines 59-75: None when the
connection is absent; otherwise one query per parameter, evaluated in the
dict-literal order, a raising standard query propagating out. -/
def get_2gr_specific_data (conn : Option Connection) (ts : String) :
    Except PyError (Option Snapshot) :=
  match conn with
  | none => .ok none
  | some c => do
    let rpm ← get_standard_pid c StdCmd.RPM
    let coolant ← get_standard_pid c StdCmd.COOLANT_TEMP
    let b1 := get_custom_pid c "VVT_ANGLE_BANK1"
    let b2 := get_custom_pid c "VVT_ANGLE_BANK2"
    let ftc := get_custom_pid c "FUEL_TRIM_CELL"
    let afc := get_custom_pid c "AF_CORRECTION"
    let thr ← get_standard_pid c StdCmd.THROTTLE_POS
    let stft ← get_standard_pid c StdCmd.SHORT_FUEL_TRIM_1
    let ltft ← get_standard_pid c StdCmd.LONG_FUEL_TRIM_1
    pure (some ⟨ts, rpm, coolant, b1, b2, ftc, afc, thr, stft, ltft⟩)

/-- Outcome of the obd.OBD() constructor together with is_connected:
a connected object, an object reporting not connected, or a constructor
exception. -/
inductive ConnectResult where
  | connected (c : Connection)
  | notConnected
  | raised (e : PyError)

/-- Method connect_obd, source lines 35-43: on a not-connected object a
ConnectionError is raised and caught; any constructor exception is
caught; both failure paths print and leave self.connection = None, so
connect_obd never raises. -/
def connect_obd (r : ConnectResult) : Option Connection :=
  match r with
  | ConnectResult.connected c => some c
  | ConnectResult.notConnected => none
  | ConnectResult.raised _ => none

/-- Method register_custom_pids, source lines 45-57, acting on the
library-wide command registry (modelled as the list of registered command
names): a no-op without a connection, otherwise one registration per
CUSTOM_PIDS entry in table order. -/
def register_custom_pids (conn : Option Connection)
    (registry : List String) : List String :=
  match conn with
  | none => registry
  | some _ => registry ++ CUSTOM_PIDS.map Prod.fst

/-- State of the CSV log file: none when the file does not exist,
otherwise the list of its rows. -/
def FileState := Option (List (List String))

/-- Method log_to_csv, source lines 89-100: obtain a snapshot (a raising
standard query propagates), return False on an absent snapshot without
touching the file; otherwise the very next statement evaluates
os.path.isfile, and the module never imports os, so the name lookup
raises NameError before any file is opened or written. -/
def log_to_csv (conn : Option Connection) (ts : String) (fs : FileState) :
    Except PyError (Bool × FileState) :=
  match get_2gr_specific_data conn ts with
  | .error e => .error e
  | .ok none => .ok (false, fs)
  | .ok (some _) => .error PyError.nameError

/-- The misalignment branch of monitor_vvt_synchronization, source lines
112-117: when both bank readings are present and the absolute difference
exceeds 5.0 degrees, the error counter is incremented and the
misalignment message printed; the flag is that increment-and-print. -/
def vvtMisalignmentFlag (d : Snapshot) : Bool :=
  match d.vvt_bank1, d.vvt_bank2 with
  | some a, some b => decide ((5 : ℚ) < |a - b|)
  | _, _ => false

/-- The stuck-actuator branch of monitor_vvt_synchronization, source
lines 119-121: data at rpm is compared against 3000 (Python raises
TypeError when the reading is None), and only when that comparison is
true is abs applied to the bank-1 reading (again TypeError on None);
the flag is the printed stuck-solenoid message. -/
def stuckVvtCheck (d : Snapshot) : Except PyError Bool :=
  match d.rpm with
  | none => .error PyError.typeError
  | some r =>
    if (3000 : ℚ) < r then
      match d.vvt_bank1 with
      | none => .error PyError.typeError
      | some b1 => .ok (decide (|b1| < 5))
    else .ok false

/-- A transport whose standard queries raise and whose custom queries
return no value; used to exhibit exception propagation. -/
def raisingConn : Connection where
  queryStd := fun _ => Except.error PyError.connectionError
  queryCustom := fun _ => Except.ok none

/-- A transport whose every query succeeds with the value zero; used to
evaluate the sampler and logger on a live connection. -/
def okConn : Connection where
  queryStd := fun _ => Except.ok ⟨some ⟨0⟩⟩
  queryCustom := fun _ => Except.ok (some 0)

/-- A transport whose custom queries raise and whose standard queries
return a response with an absent value. -/
def errConn : Connection where
  queryStd := fun _ => Except.ok ⟨none⟩
  queryCustom := fun _ => Except.error PyError.other

/-- Claim C1: for every raw input whose payload slice at positions 2:4
parses as a byte b (0..255), the VVT angle decode returns b/128 - 50,
and the result lies in the interval [-50, 49.2]; the tight upper bound
255/128 - 50 is also recorded. -/
theorem vvt_angle_decode_formula_and_bounds :
    ∀ (data : List Char) (b : Nat),
      pyIntHex (pySlice data 2 4) = some b →
      b ≤ 255 ∧
      decode_vvt_angle data = some ((b : ℚ) / 128 - 50) ∧
      -50 ≤ (b : ℚ) / 128 - 50 ∧
      (b : ℚ) / 128 - 50 ≤ (255 : ℚ) / 128 - 50 ∧
      (b : ℚ) / 128 - 50 ≤ 246 / 5 := by
  intro data b h
  have hb : b ≤ 255 := pyIntHex_le_255 (pySlice_2_4_length_le data) h
  have hbq : (b : ℚ) ≤ 255 := by exact_mod_cast hb
  have hbq0 : (0 : ℚ) ≤ (b : ℚ) := by positivity
  refine ⟨hb, ?_, by linarith, by linarith, by linarith⟩
  simp [decode_vvt_angle, h]

/-- Witness for C1 at the payload 4180: the byte is 80 hex = 128 and the
decode returns 128/128 - 50. -/
theorem vvt_angle_decode_formula_and_bounds_witness :
    pyIntHex (pySlice ['4', '1', '8', '0'] 2 4) = some 128 ∧
    decode_vvt_angle ['4', '1', '8', '0'] = some ((128 : ℚ) / 128 - 50) := by
  have h := vvt_angle_decode_formula_and_bounds ['4', '1', '8', '0'] 128 (by decide)
  exact ⟨by decide, h.2.1⟩

/-- Claim C7: for every raw input whose payload slice at positions 2:4
parses as a byte b, the AF correction decode returns b - 128, which lies
in [-128, 127]; and every integer of [-128, 127] is attained at a
concrete payload, so the range is exactly [-128, 127]. -/
theorem af_correction_decode_formula_and_range :
    (∀ (data : List Char) (b : Nat),
      pyIntHex (pySlice data 2 4) = some b →
      decode_af_correction data = some ((b : ℤ) - 128) ∧
      -128 ≤ (b : ℤ) - 128 ∧ (b : ℤ) - 128 ≤ 127) ∧
    (∀ z : ℤ, -128 ≤ z → z ≤ 127 →
      decode_af_correction
        ['0', '0', toHexChar ((z + 128).toNat / 16), toHexChar ((z + 128).toNat % 16)]
        = some z) := by
  constructor
  · intro data b h
    have hb : b ≤ 255 := pyIntHex_le_255 (pySlice_2_4_length_le data) h
    refine ⟨?_, by omega, by omega⟩
    simp [decode_af_correction, h]
  · intro z hlo hhi
    have hz : (z + 128).toNat < 256 := by omega
    have hcast : ((z + 128).toNat : ℤ) = z + 128 := Int.toNat_of_nonneg (by omega)
    have hslice : pySlice ['0', '0', toHexChar ((z + 128).toNat / 16),
        toHexChar ((z + 128).toNat % 16)] 2 4
        = [toHexChar ((z + 128).toNat / 16), toHexChar ((z + 128).toNat % 16)] := rfl
    rw [decode_af_correction, hslice, pyIntHex_byte hz]
    simp only [Option.map_some', Option.some.injEq]
    omega

/-- Witness for C7 at the payload 00ff: byte 255, decode 255 - 128; and
the attainability construction at the extreme value 127. -/
theorem af_correction_decode_formula_and_range_witness :
    decode_af_correction ['0', '0', 'f', 'f'] = some ((255 : ℤ) - 128) ∧
    decode_af_correction
      ['0', '0', toHexChar (((127 : ℤ) + 128).toNat / 16),
        toHexChar (((127 : ℤ) + 128).toNat % 16)] = some 127 := by
  refine ⟨(af_correction_decode_formula_and_range.1 ['0', '0', 'f', 'f'] 255 (by decide)).1,
    af_correction_decode_formula_and_range.2 127 (by decide) (by decide)⟩

/-- Claim C2: for every snapshot with both bank readings present, the
misalignment flag is raised exactly when the absolute difference of the
two bank angles exceeds 5.0 degrees. -/
theorem misalignment_flag_iff :
    ∀ (d : Snapshot) (a b : ℚ),
      d.vvt_bank1 = some a → d.vvt_bank2 = some b →
      (vvtMisalignmentFlag d = true ↔ 5 < |a - b|) := by
  intro d a b h1 h2
  simp [vvtMisalignmentFlag, h1, h2]

/-- Witness for C2: bank1 = 10, bank2 = 14 (difference 4.0) raises no
flag; bank1 = 10, bank2 = 16 (difference 6.0) raises the flag. -/
theorem misalignment_flag_iff_witness :
    vvtMisalignmentFlag
      ⟨"t", none, none, some 10, some 14, none, none, none, none, none⟩ = false ∧
    vvtMisalignmentFlag
      ⟨"t", none, none, some 10, some 16, none, none, none, none, none⟩ = true := by
  refine ⟨?_, (misalignment_flag_iff _ 10 16 rfl rfl).mpr (by norm_num)⟩
  simp only [vvtMisalignmentFlag, decide_eq_false_iff_not]
  norm_num

/-- Claim C3: for every snapshot with the engine speed and the bank-1
angle present, the stuck-actuator flag is raised exactly when the speed
exceeds 3000 rpm and the bank-1 angle has absolute value below 5.0
degrees (and the check raises no error on such snapshots). -/
theorem stuck_actuator_flag_iff :
    ∀ (d : Snapshot) (r b1 : ℚ),
      d.rpm = some r → d.vvt_bank1 = some b1 →
      (stuckVvtCheck d = Except.ok true ↔ 3000 < r ∧ |b1| < 5) := by
  intro d r b1 hr hb
  simp only [stuckVvtCheck, hr, hb]
  split_ifs with h
  · simp [h]
  · simp [h]

/-- Witness for C3: rpm = 3500 with bank1 = 2 raises the flag; rpm = 2000
with bank1 = 2 does not. -/
theorem stuck_actuator_flag_iff_witness :
    stuckVvtCheck
      ⟨"t", some 3500, none, some 2, none, none, none, none, none, none⟩
      = Except.ok true ∧
    stuckVvtCheck
      ⟨"t", some 2000, none, some 2, none, none, none, none, none, none⟩
      = Except.ok false := by
  refine ⟨(stuck_actuator_flag_iff _ 3500 2 rfl rfl).mpr (by norm_num), rfl⟩

/-- Counterexample to C4 as stated: a standard-PID query that raises is
not caught anywhere in the sampler, so the exception escapes
get_2gr_specific_data instead of mapping to an absent value. -/
theorem sampler_query_error_escapes :
    get_2gr_specific_data (some raisingConn) "t"
      = Except.error PyError.connectionError := rfl

/-- Claim C4 as amended: every exception in a custom-PID query maps to an
absent value (bare except), and an absent response value in a standard-PID
query maps to an absent value; an exception raised by a standard-PID
query, however, propagates out of the sampler. -/
theorem query_failures_map_to_absent :
    ∀ (c : Connection) (n : String) (e : PyError) (cmd : StdCmd) (r : OBDResponse),
      (c.queryCustom n = Except.error e → get_custom_pid c n = none) ∧
      (c.queryStd cmd = Except.ok r → r.value = none →
        get_standard_pid c cmd = Except.ok none) := by
  intro c n e cmd r
  constructor
  · intro h
    simp [get_custom_pid, h]
  · intro h hv
    simp [get_standard_pid, h, hv]

/-- Witness for the amended C4: a raising custom query yields an absent
value and an empty standard response yields an absent value. -/
theorem query_failures_map_to_absent_witness :
    get_custom_pid errConn "AF_CORRECTION" = none ∧
    get_standard_pid errConn StdCmd.RPM = Except.ok none := by
  exact ⟨(query_failures_map_to_absent errConn "AF_CORRECTION" PyError.other
      StdCmd.RPM ⟨none⟩).1 rfl,
    (query_failures_map_to_absent errConn "AF_CORRECTION" PyError.other
      StdCmd.RPM ⟨none⟩).2 rfl rfl⟩

/-- Claim C5: with an absent transport connection the sampler returns an
absent snapshot without raising; the none branch consults no transport at
all, so no query is issued. -/
theorem sample_absent_connection :
    ∀ ts : String, get_2gr_specific_data none ts = Except.ok none :=
  fun _ => rfl

/-- Claim C9: every snapshot produced with a live connection carries
exactly the ten keys of the dict literal in its insertion order, and the
fieldnames passed to the CSV writer equal that key order. -/
theorem snapshot_keys_fixed_order :
    ∀ (c : Connection) (ts : String) (d : Snapshot),
      get_2gr_specific_data (some c) ts = Except.ok (some d) →
      d.keys = ["timestamp", "rpm", "coolant_temp", "vvt_bank1", "vvt_bank2",
        "fuel_trim_cell", "af_correction", "throttle_pos", "short_term_ft",
        "long_term_ft"] ∧ csvFieldnames d = d.keys := by
  intro c ts d _
  exact ⟨rfl, rfl⟩

/-- Witness for C9: the snapshot the sampler produces on a transport
answering every query with zero. -/
theorem snapshot_keys_fixed_order_witness :
    Snapshot.keys ⟨"t", some 0, some 0, some 0, some 0, some 0, some 0,
        some 0, some 0, some 0⟩
      = ["timestamp", "rpm", "coolant_temp", "vvt_bank1", "vvt_bank2",
        "fuel_trim_cell", "af_correction", "throttle_pos", "short_term_ft",
        "long_term_ft"] ∧
    csvFieldnames ⟨"t", some 0, some 0, some 0, some 0, some 0, some 0,
        some 0, some 0, some 0⟩
      = Snapshot.keys ⟨"t", some 0, some 0, some 0, some 0, some 0, some 0,
        some 0, some 0, some 0⟩ :=
  snapshot_keys_fixed_order okConn "t" _ rfl

/-- Claim C6, evaluated at its failing input: on a live connection whose
queries all succeed and with no CSV file yet, log_to_csv raises NameError
(the module never imports os) before creating or writing any file, so the
first call never produces a header row. -/
theorem log_to_csv_raises_nameerror :
    log_to_csv (some okConn) "t" (none : FileState)
      = Except.error PyError.nameError := rfl

/-- Claim C10, evaluated on both branches: with an absent connection
log_to_csv returns False and leaves any file state unchanged, but with a
live connection it raises NameError instead of writing a row and
returning True. -/
theorem log_to_csv_false_branch_and_crash :
    (∀ (ts : String) (fs : FileState),
      log_to_csv none ts fs = Except.ok (false, fs)) ∧
    log_to_csv (some okConn) "t" (some [])
      = Except.error PyError.nameError :=
  ⟨fun _ _ => rfl, rfl⟩

/-- Counterexample to C8 as stated: on a live connection whose standard
query raises, the logging operation propagates the error uncaught (and on
a healthy connection it raises NameError), so errors in query or logging
do escape the object. -/
theorem logging_error_escapes :
    log_to_csv (some raisingConn) "t" (some [])
      = Except.error PyError.connectionError := rfl

/-- Claim C8 as amended: a connection failure (constructor exception or a
not-connected transport) is caught and leaves the connection absent, and
in that disabled state registration is a no-op, sampling returns an
absent snapshot, and logging returns False without touching the file. -/
theorem connection_failure_disables :
    ∀ (e : PyError) (reg : List String) (ts : String) (fs : FileState),
      connect_obd (ConnectResult.raised e) = none ∧
      connect_obd ConnectResult.notConnected = none ∧
      (∀ r : ConnectResult, connect_obd r = none →
        register_custom_pids (connect_obd r) reg = reg ∧
        get_2gr_specific_data (connect_obd r) ts = Except.ok none ∧
        log_to_csv (connect_obd r) ts fs = Except.ok (false, fs)) := by
  intro e reg ts fs
  refine ⟨rfl, rfl, ?_⟩
  intro r h
  rw [h]
  exact ⟨rfl, rfl, rfl⟩

/-- Witness for the amended C8: after a failed connection attempt the
registry, the sampler and the logger are all no-ops. -/
theorem connection_failure_disables_witness :
    register_custom_pids (connect_obd ConnectResult.notConnected) [] = [] ∧
    get_2gr_specific_data (connect_obd ConnectResult.notConnected) "t"
      = Except.ok none ∧
    log_to_csv (connect_obd ConnectResult.notConnected) "t" (none : FileState)
      = Except.ok (false, none) :=
  (connection_failure_disables PyError.other [] "t" none).2.2
    ConnectResult.notConnected rfl

end ObdReader
